import Mathlib

/-!
Verification of the Unified Data Access Layer of the football-serie-a
repository: the provider-fallback query protocol, cache read/write/stale
policy and per-provider circuit breaker implemented in
`app/data/services/unified_data_service.py`, together with the provider
capability methods of `app/data/providers/base.py`,
`app/data/providers/football_data.py` and the Redis wrapper in
`app/data/cache/redis_client.py`.

The embedding is shallow: every Python method relevant to the claims is
translated into a pure, executable Lean function.  Asynchronous methods
become state-passing functions (the service's mutable
`circuit_breaker_state` / `circuit_breaker_failures` dictionaries and the
Redis store are threaded explicitly); each function additionally returns
the list of provider-invocation events so that "provider X was never
called" is a statement about a computed trace.  Python values that flow
through `json.dumps` / `json.loads` are modelled by the `PyVal` type,
whose `obj` constructor stands for a non-JSON-serialisable object (a
pydantic model or datetime) carrying its `str(...)` representation.
-/

namespace FootballSerieA

/-- A Python runtime value as seen by the cache layer.  `obj s` is a
non-JSON-serialisable object (domain model, datetime) whose `str()`
representation is `s`; the other constructors are the JSON-representable
values. -/
inductive PyVal : Type
  | jnull : PyVal
  | jbool : Bool → PyVal
  | jnum : Int → PyVal
  | jstr : String → PyVal
  | jlist : List PyVal → PyVal
  | jdict : List (String × PyVal) → PyVal
  | obj : String → PyVal

namespace PyVal

/-- Python truthiness (`if value:`): `None`, `False`, `0`, `""`, `[]` and
an empty dict are falsy; a domain object is truthy. -/
def truthy : PyVal → Bool
  | jnull => false
  | jbool b => b
  | jnum n => n != 0
  | jstr s => s != ""
  | jlist xs => !xs.isEmpty
  | jdict kvs => !kvs.isEmpty
  | obj _ => true

/-- Source: `isinstance(value, list) and not value` — the empty-list test the
fixtures operations apply to a provider result. -/
def isEmptyList : PyVal → Bool
  | jlist [] => true
  | _ => false

/-- Source: `value is None`. -/
def isNone : PyVal → Bool
  | jnull => true
  | _ => false

/-- Dict lookup, `d.get(k)`: `none` when the key is absent or the value is
not a dict. -/
def getKey : PyVal → String → Option PyVal
  | jdict kvs, k => kvs.lookup k
  | _, _ => none

end PyVal

mutual

/-- The value produced by `json.loads(json.dumps(v, default=str))`:
`default=str` replaces every non-serialisable object by its `str()`
representation, and the parse returns plain JSON values.  This is the
transformation a value undergoes on a cache write followed by a cache
read in `_set_to_cache` / `_get_from_cache`. -/
def jsonify : PyVal → PyVal
  | .jnull => .jnull
  | .jbool b => .jbool b
  | .jnum n => .jnum n
  | .jstr s => .jstr s
  | .jlist xs => .jlist (jsonifyList xs)
  | .jdict kvs => .jdict (jsonifyKVs kvs)
  | .obj s => .jstr s

/-- Source: `jsonify` mapped over the elements of a JSON array. -/
def jsonifyList : List PyVal → List PyVal
  | [] => []
  | x :: xs => jsonify x :: jsonifyList xs

/-- Source: `jsonify` mapped over the values of a JSON object. -/
def jsonifyKVs : List (String × PyVal) → List (String × PyVal)
  | [] => []
  | (k, v) :: kvs => (k, jsonify v) :: jsonifyKVs kvs

end

/-! ## Redis store (`app/data/cache/redis_client.py`)

`RedisClient.setex(key, ttl, value)` stores the serialised value with a
physical expiry of `ttl` seconds; `RedisClient.get(key)` returns the
value while it has not expired and `nil` once the server has evicted it.
The store is an association list keyed by cache key, each entry holding
the parsed form of the stored JSON text and its absolute expiry time. -/

structure CacheEntry where
  value : PyVal
  expiry : Nat

/-- The Redis key space. -/
def Store : Type := List (String × CacheEntry)

/-- Source: `redis_client.get(key)` at absolute time `now`: the stored value while
`now` is before the entry's expiry, nothing once the TTL has elapsed
(Redis evicts the key at its `setex` deadline). -/
def redisGet (s : Store) (now : Nat) (key : String) : Option PyVal :=
  match s.lookup key with
  | some e => if now < e.expiry then some e.value else none
  | none => none

/-- Source: `redis_client.setex(key, ttl, value)`: overwrite the key with the
given value, expiring `ttl` seconds from `now`. -/
def redisSetex (s : Store) (now : Nat) (key : String) (ttl : Nat) (v : PyVal) : Store :=
  (key, ⟨v, now + ttl⟩) :: s

/-! ## Circuit breaker state (`UnifiedDataService.__init__`,
`_handle_provider_failure`, `_reset_circuit_breaker`) -/

/-- The per-provider breaker state strings `"CLOSED"` / `"OPEN"`. -/
inductive BState : Type
  | CLOSED : BState
  | OPEN : BState
  deriving DecidableEq, Repr

structure Breaker where
  state : BState
  failures : Nat
  deriving DecidableEq, Repr

/-- Source: `self.max_failures = 3` -/
def maxFailures : Nat := 3

/-- Source: `self.reset_timeout = 300` -/
def resetTimeout : Nat := 300

/-- One application of `_handle_provider_failure` to a single provider's
breaker: increment the failure count, and open the breaker when the count
reaches `max_failures` (the scheduled `_reset_circuit_breaker` task is a
detached timer, not part of the query's own state transition). -/
def handleFailureB (b : Breaker) : Breaker :=
  let f := b.failures + 1
  { state := if maxFailures ≤ f then .OPEN else b.state, failures := f }

/-- Source: `_reset_circuit_breaker`, after `reset_timeout` seconds: close the
breaker and zero the failure count. -/
def resetBreakerB (_b : Breaker) : Breaker :=
  { state := .CLOSED, failures := 0 }

/-- The mutable state of a `UnifiedDataService` instance together with the
Redis store it talks to: `circuit_breaker_state`/`circuit_breaker_failures`
(merged into one `Breaker` per provider name) and the cache. -/
structure SState where
  store : Store
  breakers : List (String × Breaker)

/-- Read a provider's breaker; `__init__` populates every provider name
with `("CLOSED", 0)`, which is the default for names outside the map. -/
def getBreaker (st : SState) (name : String) : Breaker :=
  (st.breakers.lookup name).getD ⟨.CLOSED, 0⟩

def setBreaker (st : SState) (name : String) (b : Breaker) : SState :=
  { st with breakers := (name, b) :: st.breakers }

/-- Source: `_handle_provider_failure(provider, error)` on the service state. -/
def handleProviderFailure (st : SState) (name : String) : SState :=
  setBreaker st name (handleFailureB (getBreaker st name))

/-- The state built by `UnifiedDataService.__init__`: empty cache, every
provider's breaker `CLOSED` with zero failures. -/
def initState : SState :=
  { store := []
    breakers := [("api_football", ⟨.CLOSED, 0⟩), ("football_data", ⟨.CLOSED, 0⟩),
                 ("statsbomb", ⟨.CLOSED, 0⟩)] }

/-! ## Retry helper (`UnifiedDataService._execute_with_retry`) -/

/-- Result of one provider-operation attempt: a returned value or a raised
exception. -/
inductive Outcome (α : Type) : Type
  | ok : α → Outcome α
  | err : Outcome α

/-- The observable behaviour of one `_execute_with_retry` call: how many
times the wrapped operation was invoked, the durations (in seconds) of the
backoff sleeps performed, and the final returned value or propagated
exception. -/
structure RetryTrace (α : Type) where
  calls : Nat
  sleeps : List Nat
  result : Outcome α

/-- The loop body of `_execute_with_retry` from attempt number `attempt`
with `remaining` further attempts allowed after this one:

    for attempt in range(max_retries + 1):
        try:
            return await func()
        except Exception as e:
            if attempt == max_retries:
                raise e
            await asyncio.sleep(1 * (attempt + 1))

`func` is modelled as a map from attempt number to that attempt's
outcome. -/
def execRetryAux (f : Nat → Outcome α) : Nat → Nat → RetryTrace α
  | attempt, 0 =>
    { calls := 1, sleeps := [], result := f attempt }
  | attempt, remaining + 1 =>
    match f attempt with
    | .ok v => { calls := 1, sleeps := [], result := .ok v }
    | .err =>
      let t := execRetryAux f (attempt + 1) remaining
      { calls := t.calls + 1, sleeps := 1 * (attempt + 1) :: t.sleeps, result := t.result }

/-- Source: `_execute_with_retry(func, provider, max_retries=2)`. -/
def execute_with_retry (f : Nat → Outcome α) (maxRetries : Nat := 2) : RetryTrace α :=
  execRetryAux f 0 maxRetries

/-! ## Cache helpers of the service
(`_get_from_cache`, `_set_to_cache`, `_get_stale_data`) -/

/-- Source: `settings.REDIS_CACHE_TTL_LIVE` -/
def TTL_LIVE : Nat := 300

/-- Source: `settings.REDIS_CACHE_TTL_STATIC` -/
def TTL_STATIC : Nat := 86400

/-- Source: `_get_from_cache(key)`: `redis_client.get` followed by `json.loads`;
`None` when the key is absent or already expired. -/
def get_from_cache (st : SState) (now : Nat) (key : String) : Option PyVal :=
  redisGet st.store now key

/-- Source: `_set_to_cache(key, data, ttl)`: `json.dumps(data, default=str)` then
`redis_client.setex(key, ttl, serialized)`. -/
def set_to_cache (st : SState) (now : Nat) (key : String) (data : PyVal) (ttl : Nat) : SState :=
  { st with store := redisSetex st.store now key ttl (jsonify data) }

/-- Source: `_get_stale_data(key)`: the same `redis_client.get` + `json.loads` as
the fresh path (the comment in the source says "regardless of TTL", but
the only TTL in play is the physical `setex` expiry the server itself
enforces). -/
def get_stale_data (st : SState) (now : Nat) (key : String) : Option PyVal :=
  redisGet st.store now key

/-! ## The provider-fallback query protocol

Each public query method of `UnifiedDataService` has the same shape:
cache read, then a loop over `self.providers` skipping OPEN breakers and
retry-wrapping each call, then a stale-cache read, then a terminal empty
value.  `get_fixtures` additionally treats an empty-list result as
failure-to-satisfy (`continue` without a breaker failure).  The shared
shape is captured by `serviceQuery` and instantiated per method with the
method's key, TTL class, empty-list policy and terminal value, exactly as
the four bodies differ in the source. -/

/-- A provider as the service sees it for one query: its
`provider_name` and the outcome of each successive call attempt of the
relevant capability method. -/
structure ProviderModel where
  name : String
  behavior : Nat → Outcome PyVal

/-- The provider loop of a query method.  Returns the accepted result (if
any), the updated service state, and the accumulated trace of provider
invocation attempts (one list element per underlying capability call). -/
def provLoop (skipEmpty : Bool) (ttl : Nat) (key : String) (now : Nat) :
    SState → List String → List ProviderModel → Option PyVal × SState × List String
  | st, invs, [] => (none, st, invs)
  | st, invs, p :: rest =>
    if (getBreaker st p.name).state = .OPEN then
      provLoop skipEmpty ttl key now st invs rest
    else
      let t := execute_with_retry p.behavior 2
      let invs2 := invs ++ List.replicate t.calls p.name
      match t.result with
      | .err => provLoop skipEmpty ttl key now (handleProviderFailure st p.name) invs2 rest
      | .ok v =>
        if skipEmpty && v.isEmptyList then
          provLoop skipEmpty ttl key now st invs2 rest
        else if !v.isNone then
          (some v, set_to_cache st now key v ttl, invs2)
        else
          provLoop skipEmpty ttl key now st invs2 rest

/-- The common body of `get_live_matches`, `get_fixtures`,
`get_match_by_id` and `get_standings`: fresh cache read (hit iff the
loaded value is truthy), provider loop, stale read, terminal value. -/
def serviceQuery (skipEmpty : Bool) (ttl : Nat) (key : String) (terminal : PyVal)
    (st : SState) (now : Nat) (ps : List ProviderModel) : PyVal × SState × List String :=
  let runMiss : PyVal × SState × List String :=
    match provLoop skipEmpty ttl key now st [] ps with
    | (some v, st2, invs) => (v, st2, invs)
    | (none, st2, invs) =>
      match get_stale_data st2 now key with
      | some sv => if sv.truthy then (sv, st2, invs) else (terminal, st2, invs)
      | none => (terminal, st2, invs)
  match get_from_cache st now key with
  | some v => if v.truthy then (v, st, []) else runMiss
  | none => runMiss

/-- Source: `f"fixtures:{matchday if matchday is not None else 'all'}"`,
parameter part. -/
def mdKeyPart : Option Int → String
  | some n => toString n
  | none => "all"

/-- Source: `UnifiedDataService.get_live_matches()`.  `dateStr` is
`datetime.now().strftime` of today, used only in the cache key. -/
def get_live_matches (st : SState) (now : Nat) (dateStr : String)
    (ps : List ProviderModel) : PyVal × SState × List String :=
  serviceQuery false TTL_LIVE ("live_matches:" ++ dateStr) (.jlist []) st now ps

/-- Source: `UnifiedDataService.get_fixtures(matchday)`: like `get_live_matches`
but an empty-list provider result continues to the next provider, the
static TTL class is used and the key is matchday-qualified. -/
def get_fixtures (st : SState) (now : Nat) (matchday : Option Int)
    (ps : List ProviderModel) : PyVal × SState × List String :=
  serviceQuery true TTL_STATIC ("fixtures:" ++ mdKeyPart matchday) (.jlist []) st now ps

/-- Source: `UnifiedDataService.get_match_by_id(match_id)`: single-item query,
terminal value `None`. -/
def get_match_by_id (st : SState) (now : Nat) (matchId : Int)
    (ps : List ProviderModel) : PyVal × SState × List String :=
  serviceQuery false TTL_STATIC ("match:" ++ toString matchId) .jnull st now ps

/-- Source: `UnifiedDataService.get_standings()`: single-item query, terminal
value `None`. -/
def get_standings (st : SState) (now : Nat)
    (ps : List ProviderModel) : PyVal × SState × List String :=
  serviceQuery false TTL_STATIC "standings:current" .jnull st now ps

/-! ## League-parameterized operations

`get_live_matches_norway` / `get_fixtures_norway` do NOT run the provider
loop: they construct a fresh `ApiFootballProvider()` and call it directly
— with no circuit-breaker check and no `_execute_with_retry` wrapper.
`apiBehavior` is the outcome of that single call. -/

/-- The `MatchStatus` enum of `app/data/models/common.py`. -/
inductive MatchStatus : Type
  | SCHEDULED | LIVE | IN_PLAY | PAUSED | FINISHED | POSTPONED | CANCELLED
  deriving DecidableEq

/-- Source: `UnifiedDataService._create_norway_mock_match`: builds a `MatchLive`
pydantic object (a non-JSON-serialisable value, hence `PyVal.obj`); the
score is present only for a `FINISHED` status.  `utcDate` stands for the
`base_day + timedelta(...)` argument. -/
def create_norway_mock_match (id : Int) (home away : String)
    (homeScore awayScore : Int) (status : MatchStatus) (matchday : Int)
    (utcDate : String) : PyVal :=
  .obj ("MatchLive(id=" ++ toString id ++ ", competition=Eliteserien, matchday="
    ++ toString matchday ++ ", home=" ++ home ++ ", away=" ++ away
    ++ (if status = MatchStatus.FINISHED then
          ", score=" ++ toString homeScore ++ "-" ++ toString awayScore
        else ", score=None")
    ++ ", date=" ++ utcDate ++ ")")

/-- Source: `UnifiedDataService._get_mock_norway_fixtures(matchday)`: four
finished matches (matchday 1), four scheduled matches (matchday 2), their
concatenation otherwise. -/
def get_mock_norway_fixtures (matchday : Option Int) : PyVal :=
  let finishedMatches : List PyVal := [
    create_norway_mock_match 3001 "Bodø/Glimt" "Rosenborg" 3 1 .FINISHED 1 "base-2d",
    create_norway_mock_match 3002 "Molde" "Vålerenga" 2 2 .FINISHED 1 "base-2d",
    create_norway_mock_match 3003 "Brann" "Lillestrøm" 1 0 .FINISHED 1 "base-1d",
    create_norway_mock_match 3004 "Sarpsborg 08" "Odd" 0 0 .FINISHED 1 "base-1d"]
  let upcomingMatches : List PyVal := [
    create_norway_mock_match 3005 "Haugesund" "Tromsø" 0 0 .SCHEDULED 2 "base+1d",
    create_norway_mock_match 3006 "Sandefjord" "Stabæk" 0 0 .SCHEDULED 2 "base+1d",
    create_norway_mock_match 3007 "Strømsgodset" "HamKam" 0 0 .SCHEDULED 2 "base+2d",
    create_norway_mock_match 3008 "Kristiansund" "Aalesund" 0 0 .SCHEDULED 2 "base+2d"]
  if matchday = some 1 then .jlist finishedMatches
  else if matchday = some 2 then .jlist upcomingMatches
  else .jlist (finishedMatches ++ upcomingMatches)

/-- Source: `UnifiedDataService.get_live_matches_norway()`: cache read, then a
single direct `ApiFootballProvider().get_live_matches(league_id=...)`
call — no breaker check, no retry — then stale read, then `[]`. -/
def get_live_matches_norway (st : SState) (now : Nat) (dateStr : String)
    (apiBehavior : Outcome PyVal) : PyVal × SState × List String :=
  let key := "live_matches_norway:" ++ dateStr
  let runMiss : PyVal × SState × List String :=
    let invs := ["api_football"]
    let afterTry : Option PyVal × SState :=
      match apiBehavior with
      | .ok v => if !v.isNone then (some v, set_to_cache st now key v TTL_LIVE) else (none, st)
      | .err => (none, handleProviderFailure st "api_football")
    match afterTry with
    | (some v, st2) => (v, st2, invs)
    | (none, st2) =>
      match get_stale_data st2 now key with
      | some sv => if sv.truthy then (sv, st2, invs) else (.jlist [], st2, invs)
      | none => (.jlist [], st2, invs)
  match get_from_cache st now key with
  | some v => if v.truthy then (v, st, []) else runMiss
  | none => runMiss

/-- Source: `UnifiedDataService.get_fixtures_norway(matchday)`: cache read, a
single direct `ApiFootballProvider().get_fixtures(...)` call (an
empty-list result is coerced to `None`), stale read, then the non-empty
mock fixtures, then `[]`. -/
def get_fixtures_norway (st : SState) (now : Nat) (matchday : Option Int)
    (apiBehavior : Outcome PyVal) : PyVal × SState × List String :=
  let key := "fixtures_norway:" ++ mdKeyPart matchday
  let runMiss : PyVal × SState × List String :=
    let invs := ["api_football"]
    let afterTry : Option PyVal × SState :=
      match apiBehavior with
      | .ok v0 =>
        let v := if v0.isEmptyList then PyVal.jnull else v0
        if !v.isNone then (some v, set_to_cache st now key v TTL_STATIC) else (none, st)
      | .err => (none, handleProviderFailure st "api_football")
    match afterTry with
    | (some v, st2) => (v, st2, invs)
    | (none, st2) =>
      match get_stale_data st2 now key with
      | some sv =>
        if sv.truthy then (sv, st2, invs)
        else
          let mock := get_mock_norway_fixtures matchday
          if mock.truthy then (mock, st2, invs) else (.jlist [], st2, invs)
      | none =>
        let mock := get_mock_norway_fixtures matchday
        if mock.truthy then (mock, st2, invs) else (.jlist [], st2, invs)
  match get_from_cache st now key with
  | some v => if v.truthy then (v, st, []) else runMiss
  | none => runMiss

/-! ## FootballDataProvider (`app/data/providers/football_data.py`) and
the shared `BaseDataProvider._make_request` (`app/data/providers/base.py`) -/

namespace FootballDataProvider

/-- The HTTP transport: what `self.client.get(url)` followed by
`raise_for_status()` and `response.json()` yields for a URL — a parsed
JSON body, or a raised `httpx` error. -/
def Transport : Type := String → Outcome PyVal

/-- Source: `BaseDataProvider._make_request(url, headers)`: both the
`httpx.HTTPError` handler and the catch-all `except Exception` handler
print and return `None`, so the function never raises (the tenacity
`@retry` decorator wrapping it consequently never fires — the wrapped
body has no exception to retry on). -/
def make_request (t : Transport) (url : String) : Option PyVal :=
  match t url with
  | .ok v => some v
  | .err => none

/-- URL of `get_live_matches`. -/
def liveMatchesUrl : String :=
  "https://api.football-data.org/v4/matches?competitions=SA&status=LIVE"

/-- Source: `MatchStatus(value)` — valid enum values parse, others raise
`ValueError`. -/
def statusOfString : String → Option MatchStatus
  | "SCHEDULED" => some .SCHEDULED
  | "LIVE" => some .LIVE
  | "IN_PLAY" => some .IN_PLAY
  | "PAUSED" => some .PAUSED
  | "FINISHED" => some .FINISHED
  | "POSTPONED" => some .POSTPONED
  | "CANCELLED" => some .CANCELLED
  | _ => none

/-- Source: `_parse_team`: mandatory subscript accesses `team_data["id"]` and
`team_data["name"]` (a missing key raises `KeyError`); the remaining
fields use `.get` and cannot fail. -/
def parse_team (d : PyVal) : Outcome PyVal :=
  match d.getKey "id", d.getKey "name" with
  | some _, some _ => .ok (.obj "Team(parsed)")
  | _, _ => .err

/-- Source: `_parse_match`: the skeleton of its mandatory subscript accesses —
`match_data["id"]`, `["competition"]["name"]`,
`["season"]["currentMatchday"]`, `["matchday"]`, `["homeTeam"]`,
`["awayTeam"]`, `["utcDate"]`, `["status"]` — each raising `KeyError`
when absent, plus the `MatchStatus(...)` conversion raising `ValueError`
on an unknown status; a successful parse yields the `MatchLive` object.
(The datetime parse and the optional `.get` fields are abstracted as
succeeding.) -/
def parse_match (md : PyVal) : Outcome PyVal :=
  match md.getKey "id", (md.getKey "competition").bind (·.getKey "name"),
      (md.getKey "season").bind (·.getKey "currentMatchday"),
      md.getKey "matchday", md.getKey "homeTeam", md.getKey "awayTeam",
      md.getKey "utcDate", md.getKey "status" with
  | some _, some _, some _, some _, some homeT, some awayT, some _, some stv =>
    (match parse_team homeT, parse_team awayT, stv with
     | .ok _, .ok _, .jstr s =>
       (match statusOfString s with
        | some _ => .ok (.obj "MatchLive(parsed)")
        | none => .err)
     | _, _, _ => .err)
  | _, _, _, _, _, _, _, _ => .err

/-- The list comprehension
`[self._parse_match(m) for m in data.get("matches", [])]`: the first
parse failure propagates. -/
def parse_match_list : List PyVal → Outcome (List PyVal)
  | [] => .ok []
  | x :: xs =>
    match parse_match x, parse_match_list xs with
    | .ok v, .ok vs => .ok (v :: vs)
    | _, _ => .err

/-- Source: `FootballDataProvider.get_live_matches()`:

    data = await self._make_request(url, self.headers)
    if not data:
        return []
    return [self._parse_match(m) for m in data.get("matches", [])]

A network failure surfaces as `data = None`, hence `[]`; only a parse
error over a truthy body raises. -/
def get_live_matches (t : Transport) : Outcome PyVal :=
  match make_request t liveMatchesUrl with
  | none => .ok (.jlist [])
  | some data =>
    if !data.truthy then .ok (.jlist [])
    else
      match (data.getKey "matches").getD (.jlist []) with
      | .jlist ms =>
        (match parse_match_list ms with
         | .ok vs => .ok (.jlist vs)
         | .err => .err)
      | _ => .err

/-- One row of the hardcoded `real_standings` table of `get_standings`:
pos, name, id, played, won, drawn, lost, gf, ga, pts. -/
structure StandingRow where
  pos : Int
  name : String
  id : Int
  played : Int
  won : Int
  drawn : Int
  lost : Int
  gf : Int
  ga : Int
  pts : Int

/-- The hardcoded Serie A table of `FootballDataProvider.get_standings`. -/
def real_standings : List StandingRow := [
  ⟨1, "Inter", 108, 18, 14, 0, 4, 40, 15, 42⟩,
  ⟨2, "Milan", 98, 17, 11, 5, 1, 28, 13, 38⟩,
  ⟨3, "Napoli", 113, 18, 12, 2, 4, 28, 15, 38⟩,
  ⟨4, "Juventus", 109, 19, 10, 6, 3, 27, 16, 36⟩,
  ⟨5, "Roma", 100, 19, 12, 0, 7, 22, 12, 36⟩,
  ⟨6, "Como", 1033, 18, 9, 6, 3, 26, 12, 33⟩,
  ⟨7, "Atalanta", 102, 19, 7, 7, 5, 23, 19, 28⟩,
  ⟨8, "Bologna", 103, 18, 7, 5, 6, 25, 19, 26⟩,
  ⟨9, "Lazio", 110, 19, 6, 7, 6, 20, 16, 25⟩,
  ⟨10, "Udinese", 115, 19, 7, 4, 8, 20, 30, 25⟩,
  ⟨11, "Cremonese", 5890, 19, 6, 6, 7, 19, 21, 24⟩,
  ⟨12, "Sassuolo", 111, 19, 6, 5, 8, 23, 25, 23⟩,
  ⟨13, "Torino", 115, 19, 6, 5, 8, 21, 30, 23⟩,
  ⟨14, "Parma", 112, 18, 4, 6, 8, 12, 21, 18⟩,
  ⟨15, "Cagliari", 104, 19, 4, 6, 9, 19, 26, 18⟩,
  ⟨16, "Lecce", 1124, 18, 4, 5, 9, 12, 25, 17⟩,
  ⟨17, "Genoa", 107, 18, 3, 6, 9, 18, 28, 15⟩,
  ⟨18, "Verona", 119, 18, 2, 7, 9, 15, 30, 13⟩,
  ⟨19, "Fiorentina", 99, 19, 2, 7, 10, 20, 30, 13⟩,
  ⟨20, "Pisa", 1107, 19, 1, 9, 9, 13, 28, 12⟩]

/-- Source: `FootballDataProvider.get_standings()`: builds a `Standings` pydantic
object from the hardcoded `real_standings` table; the transport is in
scope (`self.client`) but never consulted — no `_make_request` call
appears in the body. -/
def get_standings (_t : Transport) : PyVal :=
  .obj ("Standings(competition=Serie A, season=19, rows="
    ++ toString real_standings.length ++ ")")

/-- Source: `FootballDataProvider._create_mock_match`: a `MatchLive` object for
Serie A (season 19); the score exists only for a `FINISHED` status. -/
def create_mock_match (id : Int) (home away : String)
    (homeScore awayScore : Int) (status : MatchStatus) (matchday : Int)
    (utcDate : String) : PyVal :=
  .obj ("MatchLive(id=" ++ toString id ++ ", competition=Serie A, matchday="
    ++ toString matchday ++ ", home=" ++ home ++ ", away=" ++ away
    ++ (if status = MatchStatus.FINISHED then
          ", score=" ++ toString homeScore ++ "-" ++ toString awayScore
        else ", score=None")
    ++ ", date=" ++ utcDate ++ ")")

/-- Source: `not matchday` on an `Optional[int]`: `None` and `0` are falsy. -/
def mdFalsy : Option Int → Bool
  | none => true
  | some n => n == 0

/-- Source: `FootballDataProvider.get_fixtures(matchday)`:

    if matchday == 19 or not matchday: return [10 finished matches]
    if matchday == 20: return [10 scheduled matches]
    return []

The transport (`self.client`) is never consulted. -/
def get_fixtures (_t : Transport) (matchday : Option Int) : PyVal :=
  if matchday = some 19 || mdFalsy matchday then
    .jlist [
      create_mock_match 10 "Pisa" "Como" 0 3 .FINISHED 19 "2026-01-06 15:00",
      create_mock_match 11 "Lecce" "Roma" 0 2 .FINISHED 19 "2026-01-06 18:00",
      create_mock_match 12 "Sassuolo" "Juventus" 0 3 .FINISHED 19 "2026-01-06 20:45",
      create_mock_match 13 "Bologna" "Atalanta" 0 2 .FINISHED 19 "2026-01-07 18:30",
      create_mock_match 14 "Napoli" "Verona" 2 2 .FINISHED 19 "2026-01-07 18:30",
      create_mock_match 15 "Lazio" "Fiorentina" 2 2 .FINISHED 19 "2026-01-07 20:45",
      create_mock_match 16 "Parma" "Inter" 0 2 .FINISHED 19 "2026-01-07 20:45",
      create_mock_match 17 "Torino" "Udinese" 1 2 .FINISHED 19 "2026-01-07 20:45",
      create_mock_match 18 "Cremonese" "Cagliari" 2 2 .FINISHED 19 "2026-01-08 18:30",
      create_mock_match 19 "Milan" "Genoa" 1 1 .FINISHED 19 "2026-01-08 20:45"]
  else if matchday = some 20 then
    .jlist [
      create_mock_match 20 "Como" "Bologna" 0 0 .SCHEDULED 20 "2026-01-10 15:00",
      create_mock_match 21 "Udinese" "Pisa" 0 0 .SCHEDULED 20 "2026-01-10 15:00",
      create_mock_match 22 "Roma" "Sassuolo" 0 0 .SCHEDULED 20 "2026-01-10 18:00",
      create_mock_match 23 "Atalanta" "Torino" 0 0 .SCHEDULED 20 "2026-01-10 20:45",
      create_mock_match 24 "Lecce" "Parma" 0 0 .SCHEDULED 20 "2026-01-11 12:30",
      create_mock_match 25 "Fiorentina" "Milan" 0 0 .SCHEDULED 20 "2026-01-11 15:00",
      create_mock_match 26 "Verona" "Lazio" 0 0 .SCHEDULED 20 "2026-01-11 18:00",
      create_mock_match 27 "Inter" "Napoli" 0 0 .SCHEDULED 20 "2026-01-11 20:45",
      create_mock_match 28 "Genoa" "Cagliari" 0 0 .SCHEDULED 20 "2026-01-12 18:30",
      create_mock_match 29 "Juventus" "Cremonese" 0 0 .SCHEDULED 20 "2026-01-12 20:45"]
  else
    .jlist []

end FootballDataProvider

end FootballSerieA

namespace FootballSerieA

/-! # Helper lemmas -/

theorem execRetryAux_calls_pos (f : Nat → Outcome α) :
    ∀ r a, 0 < (execRetryAux f a r).calls := by
  intro r
  induction r with
  | zero => intro a; simp [execRetryAux]
  | succ r ih =>
    intro a
    cases h : f a <;> simp [execRetryAux, h]

theorem exec_ok0 (f : Nat → Outcome α) (v : α) (h : f 0 = .ok v) :
    execute_with_retry f 2 = ⟨1, [], .ok v⟩ := by
  simp [execute_with_retry, execRetryAux, h]

theorem exec_all_err (f : Nat → Outcome α) (h : ∀ k, f k = .err) :
    execute_with_retry f 2 = ⟨3, [1, 2], .err⟩ := by
  simp [execute_with_retry, execRetryAux, h]

theorem getBreaker_handle_self (st : SState) (n : String) :
    getBreaker (handleProviderFailure st n) n = handleFailureB (getBreaker st n) := by
  simp [handleProviderFailure, setBreaker, getBreaker, List.lookup]

theorem getBreaker_handle_ne (st : SState) (m n : String) (h : m ≠ n) :
    getBreaker (handleProviderFailure st m) n = getBreaker st n := by
  have hb : (n == m) = false := beq_eq_false_iff_ne.mpr (Ne.symm h)
  simp [handleProviderFailure, setBreaker, getBreaker, List.lookup, hb]

theorem handleProviderFailure_store (st : SState) (n : String) :
    (handleProviderFailure st n).store = st.store := rfl

theorem set_to_cache_breakers (st : SState) (now : Nat) (k : String) (v : PyVal) (ttl : Nat) :
    (set_to_cache st now k v ttl).breakers = st.breakers := rfl

/-! # Claims -/

/-- Claim C6 (confirmed): with `max_failures = 3`, a provider whose breaker
starts at `("CLOSED", 0)` is still CLOSED after one and after two
consecutive failures recorded by `_handle_provider_failure` (failure
count 2), and becomes OPEN exactly when the third consecutive failure
brings the count to 3. -/
theorem claim_C6_breaker_threshold (st : SState) (n : String)
    (h : getBreaker st n = ⟨.CLOSED, 0⟩) :
    (getBreaker (handleProviderFailure st n) n).state = .CLOSED ∧
    (getBreaker (handleProviderFailure (handleProviderFailure st n) n) n).state = .CLOSED ∧
    (getBreaker (handleProviderFailure (handleProviderFailure st n) n) n).failures = 2 ∧
    (getBreaker (handleProviderFailure (handleProviderFailure
        (handleProviderFailure st n) n) n) n).state = .OPEN ∧
    (getBreaker (handleProviderFailure (handleProviderFailure
        (handleProviderFailure st n) n) n) n).failures = 3 := by
  simp [getBreaker_handle_self, h, handleFailureB, maxFailures]

/-- Witness for C6 at the freshly initialised service state and the
`api_football` provider. -/
theorem claim_C6_breaker_threshold_witness :
    (getBreaker (handleProviderFailure (handleProviderFailure
        (handleProviderFailure initState "api_football") "api_football")
      "api_football") "api_football").state = .OPEN :=
  (claim_C6_breaker_threshold initState "api_football" rfl).2.2.2.1

/-- Claim C7 (confirmed): `_execute_with_retry` with the default
`max_retries = 2` invokes the wrapped operation at most 3 times; a success
on attempt `i` stops with `i + 1` calls after sleeping `1 * (k + 1)`
seconds after each failed attempt `k < i`; and when all three attempts
raise, the trace is 3 calls, sleeps `[1, 2]` (no sleep after the final
attempt), and the final exception propagates to the caller. -/
theorem claim_C7_retry_contract (f : Nat → Outcome PyVal) :
    (execute_with_retry f 2).calls ≤ 3 ∧
    (∀ v, f 0 = .ok v → execute_with_retry f 2 = ⟨1, [], .ok v⟩) ∧
    (∀ v, f 0 = .err → f 1 = .ok v → execute_with_retry f 2 = ⟨2, [1], .ok v⟩) ∧
    (∀ v, f 0 = .err → f 1 = .err → f 2 = .ok v →
      execute_with_retry f 2 = ⟨3, [1, 2], .ok v⟩) ∧
    (f 0 = .err → f 1 = .err → f 2 = .err →
      execute_with_retry f 2 = ⟨3, [1, 2], .err⟩) := by
  refine ⟨?_, ?_, ?_, ?_, ?_⟩
  · cases h0 : f 0 <;> cases h1 : f 1 <;> cases h2 : f 2 <;>
      simp [execute_with_retry, execRetryAux, h0, h1, h2]
  · intro v h0; simp [execute_with_retry, execRetryAux, h0]
  · intro v h0 h1; simp [execute_with_retry, execRetryAux, h0, h1]
  · intro v h0 h1 h2; simp [execute_with_retry, execRetryAux, h0, h1, h2]
  · intro h0 h1 h2; simp [execute_with_retry, execRetryAux, h0, h1, h2]

/-- Witness for C7: an operation that raises on every attempt is called
3 times, with backoff sleeps of 1 s and 2 s, and the exception
propagates. -/
theorem claim_C7_retry_contract_witness :
    execute_with_retry (fun _ => (Outcome.err : Outcome PyVal)) 2 = ⟨3, [1, 2], .err⟩ :=
  (claim_C7_retry_contract fun _ => Outcome.err).2.2.2.2 rfl rfl rfl

/-- Claim C10 (confirmed): the cache write/read pair is not a round-trip
for domain model results.  A provider returning a non-empty list of
`MatchLive` model objects is served raw on the provider-backed call, but
`_set_to_cache` serialises with `json.dumps(..., default=str)` (turning
each model object into its string representation) and `_get_from_cache`
returns `json.loads` of that text, so the immediately following cache hit
returns a different value (a list of strings). -/
theorem claim_C10_cache_not_roundtrip :
    let p : ProviderModel := ⟨"api_football", fun _ => .ok (.jlist [.obj "MatchLive(id=1)"])⟩
    let first := get_live_matches initState 0 "2026-01-08" [p]
    let second := get_live_matches first.2.1 0 "2026-01-08" [p]
    first.1 = .jlist [.obj "MatchLive(id=1)"] ∧
    second.1 = .jlist [.jstr "MatchLive(id=1)"] ∧
    second.1 ≠ first.1 := by
  refine ⟨rfl, rfl, ?_⟩
  show PyVal.jlist [.jstr "MatchLive(id=1)"] ≠ PyVal.jlist [.obj "MatchLive(id=1)"]
  simp

/-! ## Provider-loop step lemmas -/

theorem provLoop_nil (se : Bool) (ttl : Nat) (key : String) (now : Nat)
    (st : SState) (invs : List String) :
    provLoop se ttl key now st invs [] = (none, st, invs) := rfl

theorem provLoop_cons_open (se : Bool) (ttl : Nat) (key : String) (now : Nat)
    (st : SState) (invs : List String) (p : ProviderModel) (rest : List ProviderModel)
    (hb : (getBreaker st p.name).state = .OPEN) :
    provLoop se ttl key now st invs (p :: rest) =
      provLoop se ttl key now st invs rest := by
  simp [provLoop, hb]

theorem provLoop_cons_err (se : Bool) (ttl : Nat) (key : String) (now : Nat)
    (st : SState) (invs : List String) (p : ProviderModel) (rest : List ProviderModel)
    (hb : ¬ (getBreaker st p.name).state = .OPEN)
    (hex : (execute_with_retry p.behavior 2).result = .err) :
    provLoop se ttl key now st invs (p :: rest) =
      provLoop se ttl key now (handleProviderFailure st p.name)
        (invs ++ List.replicate (execute_with_retry p.behavior 2).calls p.name) rest := by
  simp [provLoop, hb, hex]

theorem provLoop_cons_accept (se : Bool) (ttl : Nat) (key : String) (now : Nat)
    (st : SState) (invs : List String) (p : ProviderModel) (rest : List ProviderModel)
    (v : PyVal)
    (hb : ¬ (getBreaker st p.name).state = .OPEN)
    (hex : (execute_with_retry p.behavior 2).result = .ok v)
    (hse : (se && v.isEmptyList) = false)
    (hn : v.isNone = false) :
    provLoop se ttl key now st invs (p :: rest) =
      (some v, set_to_cache st now key v ttl,
        invs ++ List.replicate (execute_with_retry p.behavior 2).calls p.name) := by
  simp [provLoop, hb, hex, hse, hn]

theorem provLoop_cons_skip_empty (se : Bool) (ttl : Nat) (key : String) (now : Nat)
    (st : SState) (invs : List String) (p : ProviderModel) (rest : List ProviderModel)
    (v : PyVal)
    (hb : ¬ (getBreaker st p.name).state = .OPEN)
    (hex : (execute_with_retry p.behavior 2).result = .ok v)
    (hse : (se && v.isEmptyList) = true) :
    provLoop se ttl key now st invs (p :: rest) =
      provLoop se ttl key now st
        (invs ++ List.replicate (execute_with_retry p.behavior 2).calls p.name) rest := by
  simp [provLoop, hb, hex, hse]

theorem provLoop_cons_none_result (se : Bool) (ttl : Nat) (key : String) (now : Nat)
    (st : SState) (invs : List String) (p : ProviderModel) (rest : List ProviderModel)
    (v : PyVal)
    (hb : ¬ (getBreaker st p.name).state = .OPEN)
    (hex : (execute_with_retry p.behavior 2).result = .ok v)
    (hse : (se && v.isEmptyList) = false)
    (hn : v.isNone = true) :
    provLoop se ttl key now st invs (p :: rest) =
      provLoop se ttl key now st
        (invs ++ List.replicate (execute_with_retry p.behavior 2).calls p.name) rest := by
  simp [provLoop, hb, hex, hse, hn]

/-- When every provider raises on every attempt, the loop accepts nothing
and leaves the cache store untouched. -/
theorem provLoop_all_err (se : Bool) (ttl : Nat) (key : String) (now : Nat) :
    ∀ (ps : List ProviderModel) (st : SState) (invs : List String),
      (∀ p ∈ ps, ∀ k, p.behavior k = .err) →
      (provLoop se ttl key now st invs ps).1 = none ∧
      (provLoop se ttl key now st invs ps).2.1.store = st.store := by
  intro ps
  induction ps with
  | nil => intro st invs _; exact ⟨rfl, rfl⟩
  | cons p rest ih =>
    intro st invs h
    have hp : ∀ k, p.behavior k = .err := h p (List.mem_cons_self p rest)
    have hrest : ∀ q ∈ rest, ∀ k, q.behavior k = .err :=
      fun q hq => h q (List.mem_cons_of_mem p hq)
    by_cases hb : (getBreaker st p.name).state = .OPEN
    · rw [provLoop_cons_open se ttl key now st invs p rest hb]
      exact ih st invs hrest
    · have hex : (execute_with_retry p.behavior 2).result = .err := by
        rw [exec_all_err p.behavior hp]
      rw [provLoop_cons_err se ttl key now st invs p rest hb hex]
      have hih := ih (handleProviderFailure st p.name)
        (invs ++ List.replicate (execute_with_retry p.behavior 2).calls p.name) hrest
      exact ⟨hih.1, by rw [hih.2]; rfl⟩

/-- A provider whose breaker is OPEN contributes no invocation to the
loop trace. -/
theorem provLoop_open_not_invoked (se : Bool) (ttl : Nat) (key : String) (now : Nat)
    (n : String) :
    ∀ (ps : List ProviderModel) (st : SState) (invs : List String),
      (getBreaker st n).state = .OPEN → n ∉ invs →
      n ∉ (provLoop se ttl key now st invs ps).2.2 := by
  intro ps
  induction ps with
  | nil => intro st invs _ hninv; simpa [provLoop_nil] using hninv
  | cons p rest ih =>
    intro st invs hopen hninv
    by_cases hb : (getBreaker st p.name).state = .OPEN
    · rw [provLoop_cons_open se ttl key now st invs p rest hb]
      exact ih st invs hopen hninv
    · have hpn : p.name ≠ n := fun hcontra => hb (hcontra ▸ hopen)
      have hninv2 : n ∉ invs ++ List.replicate (execute_with_retry p.behavior 2).calls p.name := by
        simp only [List.mem_append, List.mem_replicate, not_or, not_and]
        exact ⟨hninv, fun _ hcontra => hpn hcontra.symm⟩
      cases hex : (execute_with_retry p.behavior 2).result with
      | err =>
        rw [provLoop_cons_err se ttl key now st invs p rest hb hex]
        have hopen2 : (getBreaker (handleProviderFailure st p.name) n).state = .OPEN := by
          rw [getBreaker_handle_ne st p.name n hpn]; exact hopen
        exact ih (handleProviderFailure st p.name) _ hopen2 hninv2
      | ok v =>
        cases hse : se && v.isEmptyList with
        | true =>
          rw [provLoop_cons_skip_empty se ttl key now st invs p rest v hb hex hse]
          exact ih st _ hopen hninv2
        | false =>
          cases hn : v.isNone with
          | true =>
            rw [provLoop_cons_none_result se ttl key now st invs p rest v hb hex hse hn]
            exact ih st _ hopen hninv2
          | false =>
            rw [provLoop_cons_accept se ttl key now st invs p rest v hb hex hse hn]
            exact hninv2

/-! ## Service-query-level lemmas -/

/-- When every provider raises on every attempt, a query's result is
determined entirely by the stale read (which is the same store read as
the fresh path): the stored value when present and truthy, the terminal
value otherwise. -/
theorem serviceQuery_all_err (se : Bool) (ttl : Nat) (key : String) (term : PyVal)
    (st : SState) (now : Nat) (ps : List ProviderModel)
    (h : ∀ p ∈ ps, ∀ k, p.behavior k = .err) :
    (serviceQuery se ttl key term st now ps).1 =
      (match get_stale_data st now key with
       | some v => if v.truthy then v else term
       | none => term) := by
  have hL := provLoop_all_err se ttl key now ps st [] h
  rcases hl : provLoop se ttl key now st [] ps with ⟨r, st2, invs⟩
  rw [hl] at hL
  simp only at hL
  obtain ⟨h1, h2⟩ := hL
  subst h1
  have hs2 : get_stale_data st2 now key = get_stale_data st now key := by
    unfold get_stale_data
    rw [h2]
  have hfs : get_from_cache st now key = get_stale_data st now key := rfl
  unfold serviceQuery
  rw [hl, hfs]
  cases hc : get_stale_data st now key with
  | none => simp [hc, hs2]
  | some v =>
    cases hv : v.truthy with
    | true => simp [hv]
    | false => simp [hv, hs2, hc]

/-- The invocation trace of a query is either empty (fresh cache hit) or
exactly the provider loop's trace. -/
theorem serviceQuery_invs_cases (se : Bool) (ttl : Nat) (key : String) (term : PyVal)
    (st : SState) (now : Nat) (ps : List ProviderModel) :
    (serviceQuery se ttl key term st now ps).2.2 = [] ∨
    (serviceQuery se ttl key term st now ps).2.2 =
      (provLoop se ttl key now st [] ps).2.2 := by
  rcases hl : provLoop se ttl key now st [] ps with ⟨r, st2, invs⟩
  unfold serviceQuery
  rw [hl]
  cases hc : get_from_cache st now key with
  | none =>
    cases r with
    | none =>
      cases hs : get_stale_data st2 now key with
      | none => right; simp [hs]
      | some sv => cases hsv : sv.truthy <;> [skip; skip] <;> (right; simp [hs, hsv])
    | some v => right; simp
  | some v =>
    cases hv : v.truthy with
    | true => left; simp [hv]
    | false =>
      cases r with
      | none =>
        cases hs : get_stale_data st2 now key with
        | none => right; simp [hv, hs]
        | some sv => cases hsv : sv.truthy <;> [skip; skip] <;> (right; simp [hv, hs, hsv])
      | some w => right; simp [hv]

/-- An OPEN-breaker provider receives no invocation in any serviceQuery
call. -/
theorem serviceQuery_open_not_invoked (se : Bool) (ttl : Nat) (key : String) (term : PyVal)
    (st : SState) (now : Nat) (ps : List ProviderModel) (n : String)
    (h : (getBreaker st n).state = .OPEN) :
    n ∉ (serviceQuery se ttl key term st now ps).2.2 := by
  rcases serviceQuery_invs_cases se ttl key term st now ps with hcase | hcase
  · rw [hcase]; exact List.not_mem_nil n
  · rw [hcase]
    exact provLoop_open_not_invoked se ttl key now n ps st [] h (List.not_mem_nil n)

/-- The mock Norway fixtures list is non-empty (hence truthy) for every
matchday argument. -/
theorem mock_norway_truthy (md : Option Int) :
    (get_mock_norway_fixtures md).truthy = true := by
  unfold get_mock_norway_fixtures
  by_cases h1 : md = some 1
  · simp [h1, PyVal.truthy]
  · by_cases h2 : md = some 2 <;> simp [h1, h2, PyVal.truthy]

theorem mock_norway_ne_empty (md : Option Int) :
    get_mock_norway_fixtures md ≠ .jlist [] := by
  unfold get_mock_norway_fixtures
  by_cases h1 : md = some 1
  · simp [h1]
  · by_cases h2 : md = some 2 <;> simp [h1, h2]

/-- Source: `get_fixtures_norway` with a failing provider call and an empty cache
falls through to the hardcoded mock fixtures. -/
theorem get_fixtures_norway_all_fail (now : Nat) (md : Option Int) :
    (get_fixtures_norway initState now md .err).1 = get_mock_norway_fixtures md := by
  unfold get_fixtures_norway
  simp [get_from_cache, get_stale_data, redisGet, initState, handleProviderFailure,
    setBreaker, List.lookup, mock_norway_truthy md]

end FootballSerieA

namespace FootballSerieA

/-- Source: `get_live_matches_norway` with a failing provider call: the
result is determined by a read of the same store entry the fresh path
uses (the breaker-failure handling does not touch the store). -/
theorem get_live_matches_norway_all_fail (st : SState) (now : Nat) (d : String) :
    (get_live_matches_norway st now d .err).1 =
      (match get_stale_data st now ("live_matches_norway:" ++ d) with
       | some v => if v.truthy then v else .jlist []
       | none => .jlist []) := by
  unfold get_live_matches_norway
  dsimp only
  have hss : get_stale_data (handleProviderFailure st "api_football") now
      ("live_matches_norway:" ++ d) =
      get_stale_data st now ("live_matches_norway:" ++ d) := by
    unfold get_stale_data
    rw [handleProviderFailure_store]
  have hfs : get_from_cache st now ("live_matches_norway:" ++ d) =
      get_stale_data st now ("live_matches_norway:" ++ d) := rfl
  rw [hfs]
  cases hc : get_stale_data st now ("live_matches_norway:" ++ d) with
  | none => simp [hc, hss]
  | some v =>
    cases hv : v.truthy with
    | true => simp [hc, hv]
    | false => simp [hc, hv, hss]

/-- Source: `get_fixtures_norway` with a failing provider call: the stale
value when the entry is physically present and truthy, the non-empty
hardcoded mock fixtures otherwise. -/
theorem get_fixtures_norway_stale_or_mock (st : SState) (now : Nat) (md : Option Int) :
    (get_fixtures_norway st now md .err).1 =
      (match get_stale_data st now ("fixtures_norway:" ++ mdKeyPart md) with
       | some v => if v.truthy then v else get_mock_norway_fixtures md
       | none => get_mock_norway_fixtures md) := by
  unfold get_fixtures_norway
  dsimp only
  have hss : get_stale_data (handleProviderFailure st "api_football") now
      ("fixtures_norway:" ++ mdKeyPart md) =
      get_stale_data st now ("fixtures_norway:" ++ mdKeyPart md) := by
    unfold get_stale_data
    rw [handleProviderFailure_store]
  have hfs : get_from_cache st now ("fixtures_norway:" ++ mdKeyPart md) =
      get_stale_data st now ("fixtures_norway:" ++ mdKeyPart md) := rfl
  rw [hfs]
  cases hc : get_stale_data st now ("fixtures_norway:" ++ mdKeyPart md) with
  | none => simp [hc, hss, mock_norway_truthy md]
  | some v =>
    cases hv : v.truthy with
    | true => simp [hc, hv]
    | false => simp [hc, hv, hss, mock_norway_truthy md]

/-- Claim C1 (corrected): for the four fallback-loop query operations and
the league-parameterized Norway variants, when every provider fails the
result is determined by the stale read — but `_get_stale_data` performs
the same `redis_client.get` as the fresh path, and `setex` ties the
physical retention of an entry to its logical TTL, so the
previously-written value is returned only while the entry's TTL has NOT
yet expired (and the stored value is truthy).  Once the TTL has elapsed
the store has evicted the entry — contrary to the claim's "even when the
entry's logical TTL has expired" — and the loop operations and the live
variant return their terminal empty value, while the fixtures variant
falls back to the hardcoded non-empty mock data. -/
theorem claim_C1_stale_read_requires_unexpired_entry (st : SState) (now : Nat)
    (d : String) (md : Option Int) (mid : Int) (ps : List ProviderModel)
    (h : ∀ p ∈ ps, ∀ k, p.behavior k = .err) :
    ((get_live_matches st now d ps).1 =
      (match get_stale_data st now ("live_matches:" ++ d) with
       | some v => if v.truthy then v else .jlist []
       | none => .jlist [])) ∧
    ((get_fixtures st now md ps).1 =
      (match get_stale_data st now ("fixtures:" ++ mdKeyPart md) with
       | some v => if v.truthy then v else .jlist []
       | none => .jlist [])) ∧
    ((get_match_by_id st now mid ps).1 =
      (match get_stale_data st now ("match:" ++ toString mid) with
       | some v => if v.truthy then v else .jnull
       | none => .jnull)) ∧
    ((get_standings st now ps).1 =
      (match get_stale_data st now "standings:current" with
       | some v => if v.truthy then v else .jnull
       | none => .jnull)) ∧
    ((get_live_matches_norway st now d .err).1 =
      (match get_stale_data st now ("live_matches_norway:" ++ d) with
       | some v => if v.truthy then v else .jlist []
       | none => .jlist [])) ∧
    ((get_fixtures_norway st now md .err).1 =
      (match get_stale_data st now ("fixtures_norway:" ++ mdKeyPart md) with
       | some v => if v.truthy then v else get_mock_norway_fixtures md
       | none => get_mock_norway_fixtures md)) :=
  ⟨serviceQuery_all_err false TTL_LIVE ("live_matches:" ++ d) (.jlist []) st now ps h,
   serviceQuery_all_err true TTL_STATIC ("fixtures:" ++ mdKeyPart md) (.jlist [])
     st now ps h,
   serviceQuery_all_err false TTL_STATIC ("match:" ++ toString mid) .jnull st now ps h,
   serviceQuery_all_err false TTL_STATIC "standings:current" .jnull st now ps h,
   get_live_matches_norway_all_fail st now d,
   get_fixtures_norway_stale_or_mock st now md⟩

/-- Witness for C1 (amended): an entry written at time 0 with the live
TTL is still physically present at time 10, and a query whose providers
all fail returns its value. -/
theorem claim_C1_stale_read_requires_unexpired_entry_witness :
    (get_live_matches (set_to_cache initState 0 "live_matches:d" (.jlist [.jstr "m"]) TTL_LIVE)
      10 "d" [⟨"api_football", fun _ => .err⟩]).1 = .jlist [.jstr "m"] := by
  have h : ∀ p ∈ [(⟨"api_football", fun _ => .err⟩ : ProviderModel)], ∀ k,
      p.behavior k = Outcome.err := by
    intro p hp k
    rw [List.mem_singleton] at hp
    subst hp
    rfl
  rw [(claim_C1_stale_read_requires_unexpired_entry _ 10 "d" none 0 _ h).1]
  rfl

/-- Counterexample to C1 as stated: the same entry, written at time 0
with TTL 300, is queried at time 400 (logical TTL expired).  All
providers fail, yet the service returns the empty list — not the entry's
last-known value — because Redis has evicted the key at its `setex`
deadline. -/
theorem claim_C1_counterexample :
    (get_live_matches (set_to_cache initState 0 "live_matches:d" (.jlist [.jstr "m"]) TTL_LIVE)
      400 "d" [⟨"api_football", fun _ => .err⟩]).1 = .jlist [] ∧
    (set_to_cache initState 0 "live_matches:d" (.jlist [.jstr "m"]) TTL_LIVE).store.lookup
      "live_matches:d" = some ⟨.jlist [.jstr "m"], 300⟩ ∧
    (PyVal.jlist [] : PyVal) ≠ .jlist [.jstr "m"] := by
  refine ⟨rfl, rfl, by simp⟩

/-- Claim C2 (corrected): amended — for the four fallback-loop query
operations, a provider whose breaker state is OPEN receives zero
invocation attempts; the league-parameterized operations (see the
counterexample) do not perform the breaker check at all. -/
theorem claim_C2_breaker_skip_loop_ops (st : SState) (now : Nat) (d : String)
    (md : Option Int) (mid : Int) (ps : List ProviderModel) (n : String)
    (h : (getBreaker st n).state = .OPEN) :
    n ∉ (get_live_matches st now d ps).2.2 ∧
    n ∉ (get_fixtures st now md ps).2.2 ∧
    n ∉ (get_match_by_id st now mid ps).2.2 ∧
    n ∉ (get_standings st now ps).2.2 :=
  ⟨serviceQuery_open_not_invoked false TTL_LIVE ("live_matches:" ++ d) (.jlist [])
      st now ps n h,
   serviceQuery_open_not_invoked true TTL_STATIC ("fixtures:" ++ mdKeyPart md) (.jlist [])
      st now ps n h,
   serviceQuery_open_not_invoked false TTL_STATIC ("match:" ++ toString mid) .jnull
      st now ps n h,
   serviceQuery_open_not_invoked false TTL_STATIC "standings:current" .jnull
      st now ps n h⟩

/-- Witness for C2 (amended): with `api_football` OPEN, a
`get_live_matches` call does not invoke it even though it heads the
provider list and would succeed. -/
theorem claim_C2_breaker_skip_loop_ops_witness :
    "api_football" ∉ (get_live_matches (setBreaker initState "api_football" ⟨.OPEN, 3⟩)
      0 "d" [⟨"api_football", fun _ => .ok (.jlist [.obj "m"])⟩]).2.2 :=
  (claim_C2_breaker_skip_loop_ops (setBreaker initState "api_football" ⟨.OPEN, 3⟩)
    0 "d" none 0 [⟨"api_football", fun _ => .ok (.jlist [.obj "m"])⟩]
    "api_football" rfl).1

/-- Counterexample to C2 as stated: `get_live_matches_norway` invokes the
`api_football` provider exactly once even while that provider's breaker
is OPEN — the method constructs a fresh provider and calls it without
consulting `circuit_breaker_state`. -/
theorem claim_C2_counterexample :
    (getBreaker (setBreaker initState "api_football" ⟨.OPEN, 3⟩) "api_football").state
      = .OPEN ∧
    (get_live_matches_norway (setBreaker initState "api_football" ⟨.OPEN, 3⟩)
      0 "d" .err).2.2 = ["api_football"] :=
  ⟨rfl, rfl⟩

/-- Claim C8 (corrected): amended — with every provider failing and an
empty cache, the four plain query operations return their terminal empty
value ([] for the list queries, None for the single-item queries; the
embedding is total, matching the catch-all error handling that keeps the
service from raising), and the live league variant also returns []; but
`get_fixtures_norway` does not: it falls back to the non-empty hardcoded
mock fixtures before its terminal empty value. -/
theorem claim_C8_terminal_values (now : Nat) (d : String) (md : Option Int) (mid : Int)
    (ps : List ProviderModel) (h : ∀ p ∈ ps, ∀ k, p.behavior k = .err) :
    (get_live_matches initState now d ps).1 = .jlist [] ∧
    (get_fixtures initState now md ps).1 = .jlist [] ∧
    (get_match_by_id initState now mid ps).1 = .jnull ∧
    (get_standings initState now ps).1 = .jnull ∧
    (get_live_matches_norway initState now d .err).1 = .jlist [] ∧
    (get_fixtures_norway initState now md .err).1 = get_mock_norway_fixtures md ∧
    get_mock_norway_fixtures md ≠ .jlist [] := by
  refine ⟨?_, ?_, ?_, ?_, rfl, get_fixtures_norway_all_fail now md,
    mock_norway_ne_empty md⟩
  · exact (serviceQuery_all_err false TTL_LIVE ("live_matches:" ++ d) (.jlist [])
      initState now ps h).trans rfl
  · exact (serviceQuery_all_err true TTL_STATIC ("fixtures:" ++ mdKeyPart md) (.jlist [])
      initState now ps h).trans rfl
  · exact (serviceQuery_all_err false TTL_STATIC ("match:" ++ toString mid) .jnull
      initState now ps h).trans rfl
  · exact (serviceQuery_all_err false TTL_STATIC "standings:current" .jnull
      initState now ps h).trans rfl

/-- Witness for C8 (amended): a failing provider list and an empty cache
make `get_match_by_id` return None. -/
theorem claim_C8_terminal_values_witness :
    (get_match_by_id initState 0 7 [⟨"api_football", fun _ => .err⟩]).1 = .jnull := by
  have h : ∀ p ∈ [(⟨"api_football", fun _ => .err⟩ : ProviderModel)], ∀ k,
      p.behavior k = Outcome.err := by
    intro p hp k
    rw [List.mem_singleton] at hp
    subst hp
    rfl
  exact (claim_C8_terminal_values 0 "d" none 7 _ h).2.2.1

/-- Counterexample to C8 as stated: `get_fixtures_norway` — one of the
"get_fixtures variants" the claim covers — returns the non-empty mock
fixtures, not the empty list, when its provider fails and no cache entry
of any kind exists. -/
theorem claim_C8_counterexample :
    (get_fixtures_norway initState 0 none .err).1 = get_mock_norway_fixtures none ∧
    (get_fixtures_norway initState 0 none .err).1 ≠ .jlist [] := by
  constructor
  · exact get_fixtures_norway_all_fail 0 none
  · rw [get_fixtures_norway_all_fail 0 none]
    exact mock_norway_ne_empty none

end FootballSerieA

namespace FootballSerieA

/-- Claim C3 (corrected): a network-level error during the upstream request
does NOT propagate — `_make_request` catches both `httpx.HTTPError` and
any other exception and returns None, and
`FootballDataProvider.get_live_matches` maps that to the empty list.  So
the orchestration layer receives a normally-returned `[]`,
indistinguishable from a successful response with zero matches. -/
theorem claim_C3_network_error_swallowed (t : FootballDataProvider.Transport)
    (h : t FootballDataProvider.liveMatchesUrl = .err) :
    FootballDataProvider.get_live_matches t = .ok (.jlist []) := by
  simp [FootballDataProvider.get_live_matches, FootballDataProvider.make_request, h]

/-- Witness for C3 (amended): a transport that always raises yields a
silently returned empty list. -/
theorem claim_C3_network_error_swallowed_witness :
    FootballDataProvider.get_live_matches (fun _ => .err) = .ok (.jlist []) :=
  claim_C3_network_error_swallowed (fun _ => .err) rfl

/-- Counterexample to C3 as stated: a failing transport and a succeeding
transport whose body contains zero matches produce the same normal
return value `[]` — the network error neither propagates nor is
distinguishable from a successful empty response. -/
theorem claim_C3_counterexample :
    FootballDataProvider.get_live_matches (fun _ => .err) = .ok (.jlist []) ∧
    FootballDataProvider.get_live_matches
      (fun _ => .ok (.jdict [("matches", .jlist [])])) = .ok (.jlist []) ∧
    FootballDataProvider.get_live_matches (fun _ => .err) =
      FootballDataProvider.get_live_matches
        (fun _ => .ok (.jdict [("matches", .jlist [])])) :=
  ⟨rfl, rfl, rfl⟩

/-- Claim C4 (corrected): any result accepted by `get_live_matches`
(`result is not None`) is written through to the cache under the derived
key with the live TTL class before being returned; the immediately
subsequent identical query is a provider-free cache hit returning the
serialised value — but only when that cached value is truthy.  (The
counterexample shows the accepted empty list is written yet re-read as
falsy, so the second query misses and invokes providers again.) -/
theorem claim_C4_write_through (v : PyVal) (now : Nat) (d : String)
    (hv : v.isNone = false) :
    (get_live_matches initState now d [⟨"api_football", fun _ => .ok v⟩]).1 = v ∧
    (get_live_matches initState now d
        [⟨"api_football", fun _ => .ok v⟩]).2.1.store.lookup ("live_matches:" ++ d) =
      some ⟨jsonify v, now + TTL_LIVE⟩ ∧
    ((jsonify v).truthy = true →
      get_live_matches
          (get_live_matches initState now d [⟨"api_football", fun _ => .ok v⟩]).2.1
          now d [⟨"api_football", fun _ => .ok v⟩] =
        (jsonify v,
         (get_live_matches initState now d [⟨"api_football", fun _ => .ok v⟩]).2.1,
         [])) := by
  have hb : ¬ (getBreaker initState "api_football").state = .OPEN := by
    rw [show getBreaker initState "api_football" = ⟨.CLOSED, 0⟩ from rfl]
    simp
  have hex : execute_with_retry (fun _ => Outcome.ok v) 2 = ⟨1, [], .ok v⟩ :=
    exec_ok0 _ v rfl
  have hexr : (execute_with_retry (fun _ => Outcome.ok v) 2).result = .ok v := by
    rw [hex]
  have hloop := provLoop_cons_accept false TTL_LIVE ("live_matches:" ++ d) now initState []
    ⟨"api_football", fun _ => .ok v⟩ [] v hb hexr rfl hv
  rw [hex] at hloop
  simp only [List.nil_append] at hloop
  have hfc : get_from_cache initState now ("live_matches:" ++ d) = none := rfl
  have hfirst : get_live_matches initState now d [⟨"api_football", fun _ => .ok v⟩] =
      (v, set_to_cache initState now ("live_matches:" ++ d) v TTL_LIVE,
        ["api_football"]) := by
    unfold get_live_matches serviceQuery
    rw [hfc, hloop]
    rfl
  refine ⟨by rw [hfirst], ?_, ?_⟩
  · rw [hfirst]
    simp [set_to_cache, redisSetex, List.lookup]
  · intro ht
    rw [hfirst]
    have hlt : now < now + TTL_LIVE := by unfold TTL_LIVE; omega
    have hfc2 : get_from_cache
        (set_to_cache initState now ("live_matches:" ++ d) v TTL_LIVE) now
        ("live_matches:" ++ d) = some (jsonify v) := by
      simp [get_from_cache, set_to_cache, redisSetex, redisGet, List.lookup, hlt]
    unfold get_live_matches serviceQuery
    rw [hfc2]
    simp [ht]

/-- Witness for C4 (amended): a non-empty accepted result is returned,
cached, and served from cache on the repeat query. -/
theorem claim_C4_write_through_witness :
    (get_live_matches initState 0 "d"
      [⟨"api_football", fun _ => .ok (.jlist [.obj "m"])⟩]).1 = .jlist [.obj "m"] :=
  (claim_C4_write_through (.jlist [.obj "m"]) 0 "d" rfl).1

/-- Counterexample to C4 as stated: the empty list accepted by
`get_live_matches` is written to the cache, yet the immediately
subsequent identical query is NOT served as a cache hit — the cached `[]`
parses falsy, the read is treated as a miss, and the provider is invoked
again (one invocation instead of the claimed zero). -/
theorem claim_C4_counterexample :
    (get_live_matches initState 0 "d"
      [⟨"api_football", fun _ => .ok (.jlist [])⟩]).1 = .jlist [] ∧
    (get_live_matches initState 0 "d"
      [⟨"api_football", fun _ => .ok (.jlist [])⟩]).2.1.store.lookup "live_matches:d" =
      some ⟨.jlist [], 300⟩ ∧
    (get_live_matches
      (get_live_matches initState 0 "d" [⟨"api_football", fun _ => .ok (.jlist [])⟩]).2.1
      0 "d" [⟨"api_football", fun _ => .ok (.jlist [])⟩]).2.2 = ["api_football"] ∧
    (["api_football"] : List String) ≠ [] := by
  refine ⟨rfl, rfl, rfl, by simp⟩

/-- Claim C9 (corrected): `FootballDataProvider.get_standings` and
`get_fixtures` never consult the transport (no network request is
performed, so no network failure can arise — both are total functions)
and return hardcoded data: the 20-row standings table always, and
non-empty fixtures for matchday 19, matchday 20, or any FALSY matchday —
which is None but also 0, since the code tests `not matchday`.  The
empty list is returned exactly for the remaining matchdays.  Reached in
the service fixtures loop with matchday 19, the non-empty result
terminates the loop with a success. -/
theorem claim_C9_football_data_hardcoded (t t2 : FootballDataProvider.Transport)
    (md : Option Int) :
    FootballDataProvider.get_fixtures t md = FootballDataProvider.get_fixtures t2 md ∧
    FootballDataProvider.get_standings t = FootballDataProvider.get_standings t2 ∧
    FootballDataProvider.real_standings.length = 20 ∧
    FootballDataProvider.get_standings t ≠ .jnull ∧
    ((md = some 19 ∨ FootballDataProvider.mdFalsy md = true) →
      FootballDataProvider.get_fixtures t md ≠ .jlist []) ∧
    (md = some 20 → FootballDataProvider.get_fixtures t md ≠ .jlist []) ∧
    (md ≠ some 19 → md ≠ some 20 → FootballDataProvider.mdFalsy md = false →
      FootballDataProvider.get_fixtures t md = .jlist []) ∧
    (get_fixtures initState 0 (some 19)
      [⟨"football_data",
        fun _ => .ok (FootballDataProvider.get_fixtures t (some 19))⟩]).1 =
      FootballDataProvider.get_fixtures t (some 19) := by
  refine ⟨rfl, rfl, rfl, by simp [FootballDataProvider.get_standings], ?_, ?_, ?_, rfl⟩
  · rintro (h19 | hf)
    · subst h19
      simp [FootballDataProvider.get_fixtures]
    · rcases md with _ | n
      · simp [FootballDataProvider.get_fixtures, FootballDataProvider.mdFalsy]
      · have hn : n = 0 := by simpa [FootballDataProvider.mdFalsy] using hf
        subst hn
        simp [FootballDataProvider.get_fixtures, FootballDataProvider.mdFalsy]
  · intro h20
    subst h20
    simp [FootballDataProvider.get_fixtures, FootballDataProvider.mdFalsy]
  · intro h19 h20 hf
    rcases md with _ | n
    · simp [FootballDataProvider.mdFalsy] at hf
    · have hn0 : ¬ n = 0 := by simpa [FootballDataProvider.mdFalsy] using hf
      have hn19 : ¬ n = 19 := fun hc => h19 (by rw [hc])
      have hn20 : ¬ n = 20 := fun hc => h20 (by rw [hc])
      simp [FootballDataProvider.get_fixtures, FootballDataProvider.mdFalsy,
        hn0, hn19, hn20]

/-- Witness for C9 (amended): the matchday-19 fixtures are non-empty
regardless of the network transport. -/
theorem claim_C9_football_data_hardcoded_witness :
    FootballDataProvider.get_fixtures (fun _ => .err) (some 19) ≠ .jlist [] :=
  (claim_C9_football_data_hardcoded (fun _ => .err) (fun _ => .err)
    (some 19)).2.2.2.2.1 (Or.inl rfl)

/-- Counterexample to C9 as stated: matchday 0 is "another matchday"
(neither 19 nor 20 nor None), yet `get_fixtures` returns the matchday-19
fixture list — not the empty list — because `not matchday` is true for
the integer 0. -/
theorem claim_C9_counterexample :
    FootballDataProvider.get_fixtures (fun _ => .err) (some 0) =
      FootballDataProvider.get_fixtures (fun _ => .err) (some 19) ∧
    FootballDataProvider.get_fixtures (fun _ => .err) (some 0) ≠ .jlist [] := by
  refine ⟨rfl, ?_⟩
  simp [FootballDataProvider.get_fixtures, FootballDataProvider.mdFalsy]

end FootballSerieA

namespace FootballSerieA

/-- Claim C5 (confirmed): empty-list handling is asymmetric across
operations.  In `get_live_matches`, a provider's empty list is accepted
as a valid successful result: it is returned, written to the cache under
the live key, and the loop ends with no further provider invoked.  In
`get_fixtures`, a provider's empty list continues the loop: the second
provider is invoked next (whatever its behaviour `b2`), the trace starts
with the empty-returning provider's single call, and no circuit-breaker
failure is recorded against the empty-returning provider. -/
theorem claim_C5_empty_list_asymmetry (b2 : Nat → Outcome PyVal) :
    (get_live_matches initState 0 "d"
      [⟨"api_football", fun _ => .ok (.jlist [])⟩, ⟨"football_data", b2⟩]).1 = .jlist [] ∧
    (get_live_matches initState 0 "d"
      [⟨"api_football", fun _ => .ok (.jlist [])⟩, ⟨"football_data", b2⟩]).2.2 =
      ["api_football"] ∧
    (get_live_matches initState 0 "d"
      [⟨"api_football", fun _ => .ok (.jlist [])⟩,
       ⟨"football_data", b2⟩]).2.1.store.lookup "live_matches:d" =
      some ⟨.jlist [], 300⟩ ∧
    "football_data" ∈ (get_fixtures initState 0 none
      [⟨"api_football", fun _ => .ok (.jlist [])⟩, ⟨"football_data", b2⟩]).2.2 ∧
    (get_fixtures initState 0 none
      [⟨"api_football", fun _ => .ok (.jlist [])⟩, ⟨"football_data", b2⟩]).2.2.take 1 =
      ["api_football"] ∧
    getBreaker (get_fixtures initState 0 none
      [⟨"api_football", fun _ => .ok (.jlist [])⟩, ⟨"football_data", b2⟩]).2.1
      "api_football" = ⟨.CLOSED, 0⟩ := by
  have hb1 : ¬ (getBreaker initState "api_football").state = .OPEN := by
    rw [show getBreaker initState "api_football" = ⟨.CLOSED, 0⟩ from rfl]
    simp
  have hb2 : ¬ (getBreaker initState "football_data").state = .OPEN := by
    rw [show getBreaker initState "football_data" = ⟨.CLOSED, 0⟩ from rfl]
    simp
  have hex1 : execute_with_retry (fun _ => Outcome.ok (PyVal.jlist [])) 2 =
      ⟨1, [], .ok (.jlist [])⟩ := exec_ok0 _ _ rfl
  have hcalls : (execute_with_retry b2 2).calls ≠ 0 :=
    Nat.pos_iff_ne_zero.mp (execRetryAux_calls_pos b2 2 0)
  have hstep1 := provLoop_cons_skip_empty true TTL_STATIC ("fixtures:" ++ mdKeyPart none) 0
    initState [] ⟨"api_football", fun _ => .ok (.jlist [])⟩ [⟨"football_data", b2⟩]
    (.jlist []) hb1 (by rw [hex1]) rfl
  rw [hex1] at hstep1
  simp only [List.nil_append, List.replicate_one] at hstep1
  have hmain : ∃ res st2,
      get_fixtures initState 0 none
        [⟨"api_football", fun _ => .ok (.jlist [])⟩, ⟨"football_data", b2⟩] =
        (res, st2,
          "api_football" :: List.replicate (execute_with_retry b2 2).calls "football_data") ∧
      getBreaker st2 "api_football" = ⟨.CLOSED, 0⟩ := by
    cases hres : (execute_with_retry b2 2).result with
    | err =>
      have hstep2 := provLoop_cons_err true TTL_STATIC ("fixtures:" ++ mdKeyPart none) 0
        initState ["api_football"] ⟨"football_data", b2⟩ [] hb2 hres
      refine ⟨.jlist [], handleProviderFailure initState "football_data", ?_, ?_⟩
      · unfold get_fixtures serviceQuery
        rw [show get_from_cache initState 0 ("fixtures:" ++ mdKeyPart none) = none from rfl,
          hstep1, hstep2]
        rfl
      · rw [getBreaker_handle_ne initState "football_data" "api_football" (by decide)]
        rfl
    | ok v =>
      cases hse : v.isEmptyList with
      | true =>
        have hstep2 := provLoop_cons_skip_empty true TTL_STATIC
          ("fixtures:" ++ mdKeyPart none) 0 initState ["api_football"]
          ⟨"football_data", b2⟩ [] v hb2 hres (by simp [hse])
        refine ⟨.jlist [], initState, ?_, rfl⟩
        unfold get_fixtures serviceQuery
        rw [show get_from_cache initState 0 ("fixtures:" ++ mdKeyPart none) = none from rfl,
          hstep1, hstep2]
        rfl
      | false =>
        cases hn : v.isNone with
        | true =>
          have hstep2 := provLoop_cons_none_result true TTL_STATIC
            ("fixtures:" ++ mdKeyPart none) 0 initState ["api_football"]
            ⟨"football_data", b2⟩ [] v hb2 hres (by simp [hse]) hn
          refine ⟨.jlist [], initState, ?_, rfl⟩
          unfold get_fixtures serviceQuery
          rw [show get_from_cache initState 0 ("fixtures:" ++ mdKeyPart none) = none from rfl,
            hstep1, hstep2]
          rfl
        | false =>
          have hstep2 := provLoop_cons_accept true TTL_STATIC
            ("fixtures:" ++ mdKeyPart none) 0 initState ["api_football"]
            ⟨"football_data", b2⟩ [] v hb2 hres (by simp [hse]) hn
          refine ⟨v, set_to_cache initState 0 ("fixtures:" ++ mdKeyPart none) v TTL_STATIC,
            ?_, rfl⟩
          unfold get_fixtures serviceQuery
          rw [show get_from_cache initState 0 ("fixtures:" ++ mdKeyPart none) = none from rfl,
            hstep1, hstep2]
          rfl
  obtain ⟨res, st2, heq, hbk⟩ := hmain
  refine ⟨rfl, rfl, rfl, ?_, ?_, ?_⟩
  · rw [heq]
    exact List.mem_cons_of_mem _ (List.mem_replicate.mpr ⟨hcalls, rfl⟩)
  · rw [heq]
    rfl
  · rw [heq]
    exact hbk

end FootballSerieA

namespace FootballSerieA

/-- Witness for C5 at a second provider that always raises: the fixtures
loop still reaches and invokes it after the first provider's empty
list. -/
theorem claim_C5_empty_list_asymmetry_witness :
    "football_data" ∈ (get_fixtures initState 0 none
      [⟨"api_football", fun _ => .ok (.jlist [])⟩,
       ⟨"football_data", fun _ => .err⟩]).2.2 :=
  (claim_C5_empty_list_asymmetry (fun _ => .err)).2.2.2.1

end FootballSerieA
